import Mathlib

/-!
Verification of the Leaf-Watch time-series derivation pipeline.

The repository serves FAO forestry statistics (per-country forest cover for
2000 and 2010) together with a derived 76-year series (2000..2075): real data
for 2000..2010, a decay-moderated interpolation for 2011..2025, and an
external predictive model for 2026..2075, with per-point provenance tags.

The backend implementation itself (models/data_manager.py and the series
generation module) is not part of the checked-in sources, which contain only
the data documentation (DATA_SOURCES.md, the data-units document) and the
React frontend.  The core components below are therefore modelled from the
specification and from the documentation files, which state the formulas,
unit conversions, delta conventions and provenance classification explicitly.
The documentation also records verification values produced by the real code
(Brazil: 58.61 percent in 2010 dropping to 55.71 in 2025; Bangladesh: 15.90
rising to 18.25), which are reproved below against the modelled formula and
pin down the continuous fractional-decades reading of the decay exponent.
-/

/-- Provenance classification of a series point, following the data
classification in the documentation: real measured data (2000..2010),
interpolated data (2011..2025), model predictions (2026..2075). -/
inductive Provenance where
  | real
  | interpolated
  | predicted
deriving DecidableEq, Repr

/-- Modelled from the spec: a single point of the derived time series.
A value of none is the explicit PredictionUnavailable marker used when the
external model call fails or returns no value for the requested year. -/
structure SeriesPoint where
  year : ℕ
  value : Option ℝ
  provenance : Provenance

/-- Modelled from the spec: the per-country record held by the DataStore
after load.  The real measured forest-cover values for the years 2000..2010
are kept as a function of the year; total area is a static attribute. -/
structure CountryRecord where
  totalArea : ℝ
  realCover : ℕ → ℝ

/-- The 2000 anchor value of a country record. -/
def CountryRecord.v2000 (r : CountryRecord) : ℝ := r.realCover 2000

/-- The 2010 anchor value of a country record. -/
def CountryRecord.v2010 (r : CountryRecord) : ℝ := r.realCover 2010

/-- Modelled from the spec: the error raised when a requested country is
absent from the DataStore. -/
inductive SGError where
  | notFound
deriving DecidableEq, Repr

/-- The moderating factor of the interpolation: 15 percent reduction of the
change rate per decade. -/
noncomputable def moderatingFactor : ℝ := 0.85

/-- Annual change rate computed from the two anchors (spec step 3). -/
noncomputable def annualRate (v2000 v2010 : ℝ) : ℝ := (v2010 - v2000) / 10

/-- Modelled from the spec: the interpolated value for a year in 2011..2025,
with the continuous fractional-decades exponent
(y - 2010) / 10 on the moderating factor (spec step 4). -/
noncomputable def interpValue (v2000 v2010 : ℝ) (y : ℕ) : ℝ :=
  v2010 + annualRate v2000 v2010 *
    moderatingFactor ^ (((y : ℝ) - 2010) / 10) * ((y : ℝ) - 2010)

/-- Modelled from the spec: one point of the derived series for a given year.
Years up to 2010 carry the real measured value; 2011..2025 the interpolated
value; 2026..2075 the external model forecast (none when the model fails). -/
noncomputable def genPoint (rec : CountryRecord)
    (model : CountryRecord → ℕ → Option ℝ) (y : ℕ) : SeriesPoint :=
  if y ≤ 2010 then ⟨y, some (rec.realCover y), .real⟩
  else if y ≤ 2025 then ⟨y, some (interpValue rec.v2000 rec.v2010 y), .interpolated⟩
  else ⟨y, model rec y, .predicted⟩

/-- Modelled from the spec: generateSeries looks the country up in the
DataStore, failing with NotFound when it is unknown, and otherwise emits the
full annual series for the years 2000..2075 (76 points). -/
noncomputable def generateSeries (store : List (String × CountryRecord))
    (model : CountryRecord → ℕ → Option ℝ) (name : String) :
    Except SGError (List SeriesPoint) :=
  match store.lookup name with
  | none => .error .notFound
  | some rec => .ok ((List.range 76).map (fun i => genPoint rec model (2000 + i)))

/-- Modelled from the spec: the future-only output restricts the full series
to the prediction years (2026 and later), excluding historical and
interpolated data. -/
noncomputable def futureOnly (store : List (String × CountryRecord))
    (model : CountryRecord → ℕ → Option ℝ) (name : String) :
    Except SGError (List SeriesPoint) :=
  (generateSeries store model name).map
    (List.filter (fun p => decide (2026 ≤ p.year)))

/-- Classification label of a forest-cover delta. -/
inductive DeltaLabel where
  | deforestation
  | reforestation
  | noChange
deriving DecidableEq, Repr

/-- Modelled from the spec: the delta convention of the documentation.
delta = value 2000 minus value 2010; positive means deforestation (loss),
negative means reforestation (gain), zero means no change. -/
def DeltaCalculator (v2000 v2010 : ℚ) : ℚ × DeltaLabel :=
  (v2000 - v2010,
    if 0 < v2000 - v2010 then .deforestation
    else if v2000 - v2010 < 0 then .reforestation
    else .noChange)

/-- Modelled from the spec: hectares to square kilometres, dividing by 100
(the conversion formula of the documentation). -/
def UnitConverter (hectares : ℚ) : ℚ := hectares / 100

/-- Modelled from the spec: the load-time conversion applies UnitConverter
to exactly the designated area and cover columns; all other columns pass
through unchanged. -/
def convertColumns (designated : String → Bool) (row : String → ℚ) :
    String → ℚ :=
  fun c => if designated c then UnitConverter (row c) else row c

/-- A concrete one-country record used to exercise the theorems on a
specific input. -/
noncomputable def sampleRecord : CountryRecord :=
  ⟨100, fun y => if y = 2000 then 40 else 50⟩

/-- A concrete one-country DataStore. -/
noncomputable def sampleStore : List (String × CountryRecord) :=
  [("Brazil", sampleRecord)]

/-- A concrete external model stub: fails for 2030, answers 1 elsewhere. -/
noncomputable def sampleModel : CountryRecord → ℕ → Option ℝ :=
  fun _ y => if y = 2030 then none else some 1

theorem genPoint_year (rec : CountryRecord) (model : CountryRecord → ℕ → Option ℝ)
    (y : ℕ) : (genPoint rec model y).year = y := by
  unfold genPoint
  split
  · rfl
  · split <;> rfl

theorem genPoint_provenance_real (rec : CountryRecord)
    (model : CountryRecord → ℕ → Option ℝ) {y : ℕ} (hy : y ≤ 2010) :
    (genPoint rec model y).provenance = .real := by
  unfold genPoint
  rw [if_pos hy]

theorem genPoint_provenance_interp (rec : CountryRecord)
    (model : CountryRecord → ℕ → Option ℝ) {y : ℕ} (h1 : 2011 ≤ y) (h2 : y ≤ 2025) :
    (genPoint rec model y).provenance = .interpolated := by
  unfold genPoint
  rw [if_neg (by omega), if_pos h2]

theorem genPoint_provenance_pred (rec : CountryRecord)
    (model : CountryRecord → ℕ → Option ℝ) {y : ℕ} (h1 : 2026 ≤ y) :
    (genPoint rec model y).provenance = .predicted := by
  unfold genPoint
  rw [if_neg (by omega), if_neg (by omega)]

theorem genPoint_value_real (rec : CountryRecord)
    (model : CountryRecord → ℕ → Option ℝ) {y : ℕ} (hy : y ≤ 2010) :
    (genPoint rec model y).value = some (rec.realCover y) := by
  unfold genPoint
  rw [if_pos hy]

theorem genPoint_value_interp (rec : CountryRecord)
    (model : CountryRecord → ℕ → Option ℝ) {y : ℕ} (h1 : 2011 ≤ y) (h2 : y ≤ 2025) :
    (genPoint rec model y).value = some (interpValue rec.v2000 rec.v2010 y) := by
  unfold genPoint
  rw [if_neg (by omega), if_pos h2]

theorem genPoint_value_pred (rec : CountryRecord)
    (model : CountryRecord → ℕ → Option ℝ) {y : ℕ} (h1 : 2026 ≤ y) :
    (genPoint rec model y).value = model rec y := by
  unfold genPoint
  rw [if_neg (by omega), if_neg (by omega)]

theorem generateSeries_ok (store : List (String × CountryRecord))
    (model : CountryRecord → ℕ → Option ℝ) (name : String) (rec : CountryRecord)
    (h : store.lookup name = some rec) :
    generateSeries store model name =
      .ok ((List.range 76).map (fun i => genPoint rec model (2000 + i))) := by
  unfold generateSeries
  rw [h]

/-- Every point of the emitted series is a genPoint at a year in 2000..2075. -/
theorem generateSeries_mem (store : List (String × CountryRecord))
    (model : CountryRecord → ℕ → Option ℝ) (name : String) (rec : CountryRecord)
    (pts : List SeriesPoint) (h : store.lookup name = some rec)
    (hpts : generateSeries store model name = .ok pts) :
    ∀ p ∈ pts, ∃ y, 2000 ≤ y ∧ y ≤ 2075 ∧ p = genPoint rec model y := by
  rw [generateSeries_ok store model name rec h] at hpts
  intro p hp
  rw [Except.ok.injEq] at hpts
  subst hpts
  rw [List.mem_map] at hp
  obtain ⟨i, hi, hpi⟩ := hp
  rw [List.mem_range] at hi
  exact ⟨2000 + i, by omega, by omega, hpi.symm⟩

/-- C1: for every country present in the DataStore, generateSeries returns
exactly 76 points, one per year from 2000 through 2075 inclusive, with
strictly increasing years and no missing year; in particular the years
2001..2009 are present. -/
theorem C1_generateSeries_76_points (store : List (String × CountryRecord))
    (model : CountryRecord → ℕ → Option ℝ) (name : String) (rec : CountryRecord)
    (h : store.lookup name = some rec) :
    ∃ pts : List SeriesPoint, generateSeries store model name = .ok pts ∧
      pts.length = 76 ∧
      (∀ i (hi : i < pts.length), (pts.get ⟨i, hi⟩).year = 2000 + i) ∧
      (∀ y, 2000 ≤ y → y ≤ 2075 → ∃ p ∈ pts, p.year = y) ∧
      pts.Pairwise (fun p q => p.year < q.year) := by
  refine ⟨(List.range 76).map (fun i => genPoint rec model (2000 + i)),
    generateSeries_ok store model name rec h, by simp, ?_, ?_, ?_⟩
  · intro i hi
    simp only [List.get_eq_getElem, List.getElem_map, List.getElem_range]
    exact genPoint_year rec model (2000 + i)
  · intro y hy1 hy2
    refine ⟨genPoint rec model (2000 + (y - 2000)), List.mem_map_of_mem _ ?_, ?_⟩
    · rw [List.mem_range]; omega
    · rw [genPoint_year]; omega
  · rw [List.pairwise_iff_get]
    intro i j hij
    simp only [List.get_eq_getElem, List.getElem_map, List.getElem_range,
      genPoint_year]
    have : (i : ℕ) < (j : ℕ) := hij
    omega

/-- C1 witness: the guarantee instantiated on the concrete sample store. -/
theorem C1_generateSeries_76_points_witness :
    ∃ pts : List SeriesPoint, generateSeries sampleStore sampleModel "Brazil" = .ok pts ∧
      pts.length = 76 ∧
      (∀ i (hi : i < pts.length), (pts.get ⟨i, hi⟩).year = 2000 + i) ∧
      (∀ y, 2000 ≤ y → y ≤ 2075 → ∃ p ∈ pts, p.year = y) ∧
      pts.Pairwise (fun p q => p.year < q.year) :=
  C1_generateSeries_76_points sampleStore sampleModel "Brazil" sampleRecord rfl

/-- C2: in every series that generateSeries emits, the provenance tag is
determined by the year alone: 2000 and 2010 are Real, every year in
2011..2025 is Interpolated, every year in 2026..2075 is Predicted, for every
country without exception. -/
theorem C2_provenance_by_year (store : List (String × CountryRecord))
    (model : CountryRecord → ℕ → Option ℝ) (name : String) (rec : CountryRecord)
    (pts : List SeriesPoint) (h : store.lookup name = some rec)
    (hpts : generateSeries store model name = .ok pts) :
    ∀ p ∈ pts,
      ((p.year = 2000 ∨ p.year = 2010) → p.provenance = .real) ∧
      (2011 ≤ p.year → p.year ≤ 2025 → p.provenance = .interpolated) ∧
      (2026 ≤ p.year → p.year ≤ 2075 → p.provenance = .predicted) := by
  intro p hp
  obtain ⟨y, hy1, hy2, rfl⟩ :=
    generateSeries_mem store model name rec pts h hpts p hp
  rw [genPoint_year]
  refine ⟨fun hc => ?_, fun h1 h2 => ?_, fun h1 _ => ?_⟩
  · exact genPoint_provenance_real rec model (by omega)
  · exact genPoint_provenance_interp rec model h1 h2
  · exact genPoint_provenance_pred rec model h1

/-- C2 witness: the provenance rule instantiated on the sample store. -/
theorem C2_provenance_by_year_witness :
    generateSeries sampleStore sampleModel "Brazil" =
      .ok ((List.range 76).map (fun i => genPoint sampleRecord sampleModel (2000 + i))) ∧
    ∀ p ∈ (List.range 76).map (fun i => genPoint sampleRecord sampleModel (2000 + i)),
      ((p.year = 2000 ∨ p.year = 2010) → p.provenance = .real) ∧
      (2011 ≤ p.year → p.year ≤ 2025 → p.provenance = .interpolated) ∧
      (2026 ≤ p.year → p.year ≤ 2075 → p.provenance = .predicted) :=
  ⟨generateSeries_ok sampleStore sampleModel "Brazil" sampleRecord rfl,
   C2_provenance_by_year sampleStore sampleModel "Brazil" sampleRecord _ rfl
     (generateSeries_ok sampleStore sampleModel "Brazil" sampleRecord rfl)⟩

/-- C7: for a country name absent from the DataStore, both the full-series
operation and the future-only operation fail with the NotFound error: no
crash, no empty or default-valued series. -/
theorem C7_unknown_country_notFound (store : List (String × CountryRecord))
    (model : CountryRecord → ℕ → Option ℝ) (name : String)
    (h : store.lookup name = none) :
    generateSeries store model name = .error SGError.notFound ∧
    futureOnly store model name = .error SGError.notFound := by
  have hg : generateSeries store model name = .error SGError.notFound := by
    unfold generateSeries
    rw [h]
  refine ⟨hg, ?_⟩
  unfold futureOnly
  rw [hg]
  rfl

/-- C7 witness: an unknown name on the concrete sample store. -/
theorem C7_unknown_country_notFound_witness :
    generateSeries sampleStore sampleModel "Atlantis" = .error SGError.notFound ∧
    futureOnly sampleStore sampleModel "Atlantis" = .error SGError.notFound :=
  C7_unknown_country_notFound sampleStore sampleModel "Atlantis" rfl

/-- A record with identical 2000 and 2010 anchors, for the zero-rate case. -/
noncomputable def constRecord : CountryRecord := ⟨100, fun _ => 50⟩

/-- A store holding the constant-anchor record. -/
noncomputable def constStore : List (String × CountryRecord) :=
  [("Chad", constRecord)]

/-- C5: DeltaCalculator returns delta = value 2000 minus value 2010 and a
label by the sign of the delta: Deforestation when positive, Reforestation
when negative, NoChange when zero; including the three documented examples. -/
theorem C5_deltaCalculator (a b : ℚ) :
    (DeltaCalculator a b).1 = a - b ∧
    (0 < a - b → (DeltaCalculator a b).2 = .deforestation) ∧
    (a - b < 0 → (DeltaCalculator a b).2 = .reforestation) ∧
    (a - b = 0 → (DeltaCalculator a b).2 = .noChange) ∧
    DeltaCalculator 5 3 = (2, .deforestation) ∧
    DeltaCalculator 3 5 = (-2, .reforestation) ∧
    DeltaCalculator 4 4 = (0, .noChange) := by
  refine ⟨rfl, fun h => ?_, fun h => ?_, fun h => ?_,
    by norm_num [DeltaCalculator], by norm_num [DeltaCalculator],
    by norm_num [DeltaCalculator]⟩
  · unfold DeltaCalculator
    simp only [if_pos h]
  · unfold DeltaCalculator
    rw [if_neg (by linarith), if_pos h]
  · unfold DeltaCalculator
    rw [if_neg (by rw [h]; exact lt_irrefl 0), if_neg (by rw [h]; exact lt_irrefl 0)]

/-- C5 witness: the sign rule discharged at the documented inputs. -/
theorem C5_deltaCalculator_witness :
    (0 < (5 : ℚ) - 3 ∧ (DeltaCalculator 5 3).2 = .deforestation) ∧
    ((3 : ℚ) - 5 < 0 ∧ (DeltaCalculator 3 5).2 = .reforestation) ∧
    ((4 : ℚ) - 4 = 0 ∧ (DeltaCalculator 4 4).2 = .noChange) :=
  ⟨⟨by norm_num, (C5_deltaCalculator 5 3).2.1 (by norm_num)⟩,
   ⟨by norm_num, (C5_deltaCalculator 3 5).2.2.1 (by norm_num)⟩,
   ⟨by norm_num, (C5_deltaCalculator 4 4).2.2.2.1 (by norm_num)⟩⟩

/-- C6: UnitConverter divides by 100, so converting and then multiplying by
100 recovers the original value; 64385700 hectares becomes 643857 square
kilometres; non-designated columns pass through unchanged. -/
theorem C6_unitConverter (v : ℚ) (designated : String → Bool)
    (row : String → ℚ) (c : String) :
    UnitConverter v = v / 100 ∧
    UnitConverter v * 100 = v ∧
    UnitConverter 64385700 = 643857 ∧
    (designated c = true → convertColumns designated row c = UnitConverter (row c)) ∧
    (designated c = false → convertColumns designated row c = row c) := by
  refine ⟨rfl, ?_, by norm_num [UnitConverter], fun h => ?_, fun h => ?_⟩
  · unfold UnitConverter
    field_simp
  · unfold convertColumns
    rw [if_pos h]
  · unfold convertColumns
    rw [if_neg (by simp [h])]

/-- C6 witness: the round trip and pass-through at concrete inputs. -/
theorem C6_unitConverter_witness :
    UnitConverter 64385700 * 100 = 64385700 ∧
    convertColumns (fun _ => false) (fun _ => 7) "name" = 7 :=
  ⟨(C6_unitConverter 64385700 (fun _ => false) (fun _ => 7) "name").2.1,
   (C6_unitConverter 64385700 (fun _ => false) (fun _ => 7) "name").2.2.2.2 rfl⟩

/-- C4: when the 2000 and 2010 anchors are equal (zero annual rate), every
point generateSeries produces for the years 2011..2025 has value exactly
equal to the 2010 value. -/
theorem C4_zero_rate_constant (store : List (String × CountryRecord))
    (model : CountryRecord → ℕ → Option ℝ) (name : String) (rec : CountryRecord)
    (pts : List SeriesPoint) (h : store.lookup name = some rec)
    (hpts : generateSeries store model name = .ok pts)
    (heq : rec.v2000 = rec.v2010) :
    ∀ p ∈ pts, 2011 ≤ p.year → p.year ≤ 2025 → p.value = some rec.v2010 := by
  intro p hp h1 h2
  obtain ⟨y, hy1, hy2, rfl⟩ :=
    generateSeries_mem store model name rec pts h hpts p hp
  rw [genPoint_year] at h1 h2
  rw [genPoint_value_interp rec model h1 h2]
  unfold interpValue annualRate
  rw [heq]
  simp

/-- C4 witness: the constant-anchor record on the concrete store. -/
theorem C4_zero_rate_constant_witness :
    constRecord.v2000 = constRecord.v2010 ∧
    ∀ p ∈ (List.range 76).map (fun i => genPoint constRecord sampleModel (2000 + i)),
      2011 ≤ p.year → p.year ≤ 2025 → p.value = some constRecord.v2010 :=
  ⟨rfl,
   C4_zero_rate_constant constStore sampleModel "Chad" constRecord _ rfl
     (generateSeries_ok constStore sampleModel "Chad" constRecord rfl) rfl⟩

theorem futureOnly_ok (store : List (String × CountryRecord))
    (model : CountryRecord → ℕ → Option ℝ) (name : String) (rec : CountryRecord)
    (h : store.lookup name = some rec) :
    futureOnly store model name =
      .ok ((List.range 50).map (fun i => genPoint rec model (2000 + (26 + i)))) := by
  unfold futureOnly
  rw [generateSeries_ok store model name rec h]
  rfl

/-- C8: when the external model returns no value for a requested year in
2026..2075, generateSeries marks exactly the affected points with the
explicit unavailability marker (value none), keeps the Predicted tag, does
not substitute any interpolated value, and still returns the whole
76-point series with every pre-2026 point carrying a value. -/
theorem C8_prediction_unavailable (store : List (String × CountryRecord))
    (model : CountryRecord → ℕ → Option ℝ) (name : String) (rec : CountryRecord)
    (y : ℕ) (h : store.lookup name = some rec)
    (hy1 : 2026 ≤ y) (hy2 : y ≤ 2075) (hm : model rec y = none) :
    ∃ pts, generateSeries store model name = .ok pts ∧
      pts.length = 76 ∧
      (∀ p ∈ pts, p.year = y → p.value = none ∧ p.provenance = .predicted) ∧
      (∀ p ∈ pts, 2026 ≤ p.year → p.value = model rec p.year) ∧
      (∀ p ∈ pts, p.year ≤ 2025 → ∃ v, p.value = some v) := by
  have hok := generateSeries_ok store model name rec h
  refine ⟨_, hok, by simp, ?_, ?_, ?_⟩
  · intro p hp hpy
    obtain ⟨z, hz1, hz2, rfl⟩ :=
      generateSeries_mem store model name rec _ h hok p hp
    rw [genPoint_year] at hpy
    subst hpy
    rw [genPoint_value_pred rec model hy1, hm,
      genPoint_provenance_pred rec model hy1]
    exact ⟨rfl, rfl⟩
  · intro p hp hpy
    obtain ⟨z, hz1, hz2, rfl⟩ :=
      generateSeries_mem store model name rec _ h hok p hp
    rw [genPoint_year] at hpy ⊢
    exact genPoint_value_pred rec model hpy
  · intro p hp hpy
    obtain ⟨z, hz1, hz2, rfl⟩ :=
      generateSeries_mem store model name rec _ h hok p hp
    rw [genPoint_year] at hpy
    by_cases hz : z ≤ 2010
    · exact ⟨_, genPoint_value_real rec model hz⟩
    · exact ⟨_, genPoint_value_interp rec model (by omega) hpy⟩

/-- C8 witness: the sample model fails exactly at 2030 on the sample store. -/
theorem C8_prediction_unavailable_witness :
    ∃ pts, generateSeries sampleStore sampleModel "Brazil" = .ok pts ∧
      pts.length = 76 ∧
      (∀ p ∈ pts, p.year = 2030 → p.value = none ∧ p.provenance = .predicted) ∧
      (∀ p ∈ pts, 2026 ≤ p.year → p.value = sampleModel sampleRecord p.year) ∧
      (∀ p ∈ pts, p.year ≤ 2025 → ∃ v, p.value = some v) :=
  C8_prediction_unavailable sampleStore sampleModel "Brazil" sampleRecord 2030
    rfl (by norm_num) (by norm_num) rfl

/-- C9: the future-only output is exactly the restriction of the full series
to the years 2026 and later: 50 points, years 2026..2075 in order, all
carrying the Predicted provenance and none other. -/
theorem C9_future_only (store : List (String × CountryRecord))
    (model : CountryRecord → ℕ → Option ℝ) (name : String) (rec : CountryRecord)
    (h : store.lookup name = some rec) :
    ∃ full fut, generateSeries store model name = .ok full ∧
      futureOnly store model name = .ok fut ∧
      fut = full.filter (fun p => decide (2026 ≤ p.year)) ∧
      fut.length = 50 ∧
      (∀ i (hi : i < fut.length), (fut.get ⟨i, hi⟩).year = 2026 + i) ∧
      (∀ p ∈ fut, p.provenance = .predicted ∧ 2026 ≤ p.year ∧ p.year ≤ 2075) := by
  have hok := generateSeries_ok store model name rec h
  have hfut := futureOnly_ok store model name rec h
  refine ⟨_, _, hok, hfut, ?_, by simp, ?_, ?_⟩
  · have : futureOnly store model name =
        .ok (((List.range 76).map (fun i => genPoint rec model (2000 + i))).filter
          (fun p => decide (2026 ≤ p.year))) := by
      unfold futureOnly
      rw [hok]
      rfl
    rw [this] at hfut
    exact (Except.ok.injEq _ _).mp hfut.symm
  · intro i hi
    simp only [List.get_eq_getElem, List.getElem_map, List.getElem_range,
      genPoint_year]
    omega
  · intro p hp
    rw [List.mem_map] at hp
    obtain ⟨i, hi, rfl⟩ := hp
    rw [List.mem_range] at hi
    rw [genPoint_year]
    exact ⟨genPoint_provenance_pred rec model (by omega), by omega, by omega⟩

/-- C9 witness: the future-only restriction on the concrete sample store. -/
theorem C9_future_only_witness :
    ∃ full fut, generateSeries sampleStore sampleModel "Brazil" = .ok full ∧
      futureOnly sampleStore sampleModel "Brazil" = .ok fut ∧
      fut = full.filter (fun p => decide (2026 ≤ p.year)) ∧
      fut.length = 50 ∧
      (∀ i (hi : i < fut.length), (fut.get ⟨i, hi⟩).year = 2026 + i) ∧
      (∀ p ∈ fut, p.provenance = .predicted ∧ 2026 ≤ p.year ∧ p.year ≤ 2075) :=
  C9_future_only sampleStore sampleModel "Brazil" sampleRecord rfl

theorem moderatingFactor_pos : (0 : ℝ) < moderatingFactor := by
  norm_num [moderatingFactor]

theorem sqrt085_bounds :
    (0.9219 : ℝ) < Real.sqrt 0.85 ∧ Real.sqrt 0.85 < 0.922 := by
  have hsq : Real.sqrt 0.85 ^ 2 = 0.85 := Real.sq_sqrt (by norm_num)
  have hnn : (0 : ℝ) ≤ Real.sqrt 0.85 := Real.sqrt_nonneg _
  constructor
  · nlinarith [hsq, hnn]
  · nlinarith [hsq, hnn]

/-- The documented sample: anchors 120 (2000) and 100 (2010) give annual
rate -2, and the 2015 interpolated value is 100 - 10 * sqrt 0.85. -/
theorem interpValue_sample :
    interpValue 120 100 2015 = 100 - 10 * Real.sqrt 0.85 := by
  unfold interpValue annualRate moderatingFactor
  have hc : ((2015 : ℕ) : ℝ) = 2015 := by norm_num
  rw [hc]
  have h1 : ((2015 : ℝ) - 2010) / 10 = 1 / 2 := by norm_num
  rw [h1, ← Real.sqrt_eq_rpow]
  ring

theorem interpValue_sample_bound :
    |interpValue 120 100 2015 - 90.79| ≤ 0.01 := by
  rw [interpValue_sample]
  obtain ⟨hlo, hhi⟩ := sqrt085_bounds
  rw [abs_le]
  constructor <;> nlinarith [hlo, hhi]

/-- C3: every interpolated point of the series carries exactly the value
value2010 + annualRate * 0.85 ^ ((y - 2010) / 10) * (y - 2010), with the
continuous fractional-decades exponent; and, at anchors 120 and 100 (annual
rate -2), the 2015 value lies within 0.01 of 90.79. -/
theorem C3_interpolation_values (store : List (String × CountryRecord))
    (model : CountryRecord → ℕ → Option ℝ) (name : String) (rec : CountryRecord)
    (pts : List SeriesPoint) (h : store.lookup name = some rec)
    (hpts : generateSeries store model name = .ok pts) :
    (∀ p ∈ pts, 2011 ≤ p.year → p.year ≤ 2025 →
      p.value = some (rec.v2010 + (rec.v2010 - rec.v2000) / 10 *
        (0.85 : ℝ) ^ (((p.year : ℝ) - 2010) / 10) * ((p.year : ℝ) - 2010))) ∧
    |interpValue 120 100 2015 - 90.79| ≤ 0.01 := by
  refine ⟨?_, interpValue_sample_bound⟩
  intro p hp h1 h2
  obtain ⟨y, hy1, hy2, rfl⟩ :=
    generateSeries_mem store model name rec pts h hpts p hp
  rw [genPoint_year] at h1 h2 ⊢
  rw [genPoint_value_interp rec model h1 h2]
  rfl

/-- C3 witness: the formula and tolerance discharged on the sample store. -/
theorem C3_interpolation_values_witness :
    (∀ p ∈ (List.range 76).map (fun i => genPoint sampleRecord sampleModel (2000 + i)),
      2011 ≤ p.year → p.year ≤ 2025 →
      p.value = some (sampleRecord.v2010 + (sampleRecord.v2010 - sampleRecord.v2000) / 10 *
        (0.85 : ℝ) ^ (((p.year : ℝ) - 2010) / 10) * ((p.year : ℝ) - 2010))) ∧
    |interpValue 120 100 2015 - 90.79| ≤ 0.01 :=
  C3_interpolation_values sampleStore sampleModel "Brazil" sampleRecord _ rfl
    (generateSeries_ok sampleStore sampleModel "Brazil" sampleRecord rfl)

/-- The year-offset weight of the interpolation formula:
0.85 ^ (t / 10) * t for t years past 2010. -/
noncomputable def decayWeight (t : ℕ) : ℝ :=
  moderatingFactor ^ ((t : ℝ) / 10) * (t : ℝ)

/-- The interpolation formula through the decay weight of the year offset. -/
theorem interpValue_eq_decayWeight (v2000 v2010 : ℝ) {y : ℕ} (hy : 2010 ≤ y) :
    interpValue v2000 v2010 y =
      v2010 + annualRate v2000 v2010 * decayWeight (y - 2010) := by
  unfold interpValue decayWeight
  have hcast : ((y - 2010 : ℕ) : ℝ) = (y : ℝ) - 2010 := by
    push_cast [hy]
    ring
  rw [hcast]
  ring

theorem decayWeight_pos {t : ℕ} (h : 1 ≤ t) : 0 < decayWeight t := by
  unfold decayWeight
  have := Real.rpow_pos_of_pos moderatingFactor_pos ((t : ℝ) / 10)
  have ht : (0 : ℝ) < (t : ℝ) := by exact_mod_cast h
  positivity

/-- The tenth root of the moderating factor exceeds 14/15, the largest
year-over-year ratio occurring inside the interpolated window. -/
theorem moderatingFactor_tenthRoot_bound :
    (14 : ℝ) / 15 < moderatingFactor ^ ((1 : ℝ) / 10) := by
  have hmf := moderatingFactor_pos
  have hs_pos : 0 < moderatingFactor ^ ((1 : ℝ) / 10) :=
    Real.rpow_pos_of_pos hmf _
  have hs10 : (moderatingFactor ^ ((1 : ℝ) / 10)) ^ (10 : ℕ) = moderatingFactor := by
    rw [← Real.rpow_natCast (moderatingFactor ^ ((1 : ℝ) / 10)) 10,
      ← Real.rpow_mul (le_of_lt hmf)]
    norm_num
  have h1415 : ((14 : ℝ) / 15) ^ (10 : ℕ) < moderatingFactor := by
    norm_num [moderatingFactor]
  by_contra hle
  push_neg at hle
  have hmono : (moderatingFactor ^ ((1 : ℝ) / 10)) ^ (10 : ℕ) ≤ ((14 : ℝ) / 15) ^ (10 : ℕ) :=
    pow_le_pow_left₀ (le_of_lt hs_pos) hle 10
  rw [hs10] at hmono
  linarith

theorem decayWeight_step {t : ℕ} (h1 : 1 ≤ t) (h2 : t ≤ 14) :
    decayWeight t < decayWeight (t + 1) := by
  have hmf := moderatingFactor_pos
  have hbase : 0 < moderatingFactor ^ ((t : ℝ) / 10) :=
    Real.rpow_pos_of_pos hmf _
  have hroot := moderatingFactor_tenthRoot_bound
  have ht14 : (t : ℝ) ≤ 14 := by exact_mod_cast h2
  have ht0 : (0 : ℝ) ≤ (t : ℝ) := Nat.cast_nonneg t
  have hsplit : moderatingFactor ^ (((t + 1 : ℕ) : ℝ) / 10)
      = moderatingFactor ^ ((t : ℝ) / 10) * moderatingFactor ^ ((1 : ℝ) / 10) := by
    rw [← Real.rpow_add hmf]
    congr 1
    push_cast
    ring
  have hkey : (t : ℝ) < moderatingFactor ^ ((1 : ℝ) / 10) * ((t : ℝ) + 1) := by
    nlinarith [hroot, ht14, ht0]
  unfold decayWeight
  rw [hsplit]
  have hcast : ((t + 1 : ℕ) : ℝ) = (t : ℝ) + 1 := by push_cast; ring
  rw [hcast]
  calc moderatingFactor ^ ((t : ℝ) / 10) * (t : ℝ)
      < moderatingFactor ^ ((t : ℝ) / 10) *
          (moderatingFactor ^ ((1 : ℝ) / 10) * ((t : ℝ) + 1)) :=
        mul_lt_mul_of_pos_left hkey hbase
    _ = moderatingFactor ^ ((t : ℝ) / 10) * moderatingFactor ^ ((1 : ℝ) / 10) *
          ((t : ℝ) + 1) := by ring

theorem decayWeight_mono {t1 : ℕ} (h1 : 1 ≤ t1) :
    ∀ t2, t1 < t2 → t2 ≤ 15 → decayWeight t1 < decayWeight t2 := by
  intro t2
  induction t2 with
  | zero => omega
  | succ n ih =>
    intro hlt h15
    by_cases hn : t1 = n
    · subst hn
      exact decayWeight_step h1 (by omega)
    · exact lt_trans (ih (by omega) (by omega))
        (decayWeight_step (by omega) (by omega))

/-- C10: the interpolated segment preserves the direction of the 2000 to
2010 trend.  Interpolated points carry exactly the formula value; when the
2010 anchor exceeds the 2000 anchor every interpolated value lies strictly
above the 2010 value and the segment strictly increases with the year, and
symmetrically when the 2010 anchor is below the 2000 anchor the segment
lies strictly below the 2010 value and strictly decreases. -/
theorem C10_trend_preservation (store : List (String × CountryRecord))
    (model : CountryRecord → ℕ → Option ℝ) (name : String) (rec : CountryRecord)
    (pts : List SeriesPoint) (h : store.lookup name = some rec)
    (hpts : generateSeries store model name = .ok pts) :
    (∀ p ∈ pts, p.provenance = .interpolated →
      2011 ≤ p.year ∧ p.year ≤ 2025 ∧
      p.value = some (interpValue rec.v2000 rec.v2010 p.year)) ∧
    (rec.v2000 < rec.v2010 →
      (∀ y : ℕ, 2011 ≤ y → y ≤ 2025 →
        rec.v2010 < interpValue rec.v2000 rec.v2010 y) ∧
      (∀ y1 y2 : ℕ, 2011 ≤ y1 → y1 < y2 → y2 ≤ 2025 →
        interpValue rec.v2000 rec.v2010 y1 < interpValue rec.v2000 rec.v2010 y2)) ∧
    (rec.v2010 < rec.v2000 →
      (∀ y : ℕ, 2011 ≤ y → y ≤ 2025 →
        interpValue rec.v2000 rec.v2010 y < rec.v2010) ∧
      (∀ y1 y2 : ℕ, 2011 ≤ y1 → y1 < y2 → y2 ≤ 2025 →
        interpValue rec.v2000 rec.v2010 y2 < interpValue rec.v2000 rec.v2010 y1)) := by
  refine ⟨?_, fun hup => ⟨?_, ?_⟩, fun hdown => ⟨?_, ?_⟩⟩
  · intro p hp hprov
    obtain ⟨y, hy1, hy2, rfl⟩ :=
      generateSeries_mem store model name rec pts h hpts p hp
    rw [genPoint_year]
    by_cases hle : y ≤ 2010
    · rw [genPoint_provenance_real rec model hle] at hprov
      exact absurd hprov (by decide)
    · by_cases hle2 : y ≤ 2025
      · exact ⟨by omega, hle2, genPoint_value_interp rec model (by omega) hle2⟩
      · rw [genPoint_provenance_pred rec model (by omega)] at hprov
        exact absurd hprov (by decide)
  · intro y h1 h2
    have hrate : 0 < annualRate rec.v2000 rec.v2010 := by
      unfold annualRate
      linarith
    rw [interpValue_eq_decayWeight rec.v2000 rec.v2010 (by omega : 2010 ≤ y)]
    have := mul_pos hrate ((@decayWeight_pos (y - 2010) (by omega)))
    linarith
  · intro y1 y2 h1 h12 h2
    have hrate : 0 < annualRate rec.v2000 rec.v2010 := by
      unfold annualRate
      linarith
    rw [interpValue_eq_decayWeight rec.v2000 rec.v2010 (by omega : 2010 ≤ y1),
      interpValue_eq_decayWeight rec.v2000 rec.v2010 (by omega : 2010 ≤ y2)]
    have hdw := @decayWeight_mono (y1 - 2010) (by omega)
      (y2 - 2010) (by omega) (by omega)
    have := mul_lt_mul_of_pos_left hdw hrate
    linarith
  · intro y h1 h2
    have hrate : annualRate rec.v2000 rec.v2010 < 0 := by
      unfold annualRate
      linarith
    rw [interpValue_eq_decayWeight rec.v2000 rec.v2010 (by omega : 2010 ≤ y)]
    have := mul_neg_of_neg_of_pos hrate ((@decayWeight_pos (y - 2010) (by omega)))
    linarith
  · intro y1 y2 h1 h12 h2
    have hrate : annualRate rec.v2000 rec.v2010 < 0 := by
      unfold annualRate
      linarith
    rw [interpValue_eq_decayWeight rec.v2000 rec.v2010 (by omega : 2010 ≤ y1),
      interpValue_eq_decayWeight rec.v2000 rec.v2010 (by omega : 2010 ≤ y2)]
    have hdw := @decayWeight_mono (y1 - 2010) (by omega)
      (y2 - 2010) (by omega) (by omega)
    have := mul_lt_mul_of_neg_left hdw hrate
    linarith

/-- C10 witness: the trend statement discharged on the sample store, whose
record rises from 40 in 2000 to 50 in 2010. -/
theorem C10_trend_preservation_witness :
    (∀ p ∈ (List.range 76).map (fun i => genPoint sampleRecord sampleModel (2000 + i)),
      p.provenance = .interpolated →
      2011 ≤ p.year ∧ p.year ≤ 2025 ∧
      p.value = some (interpValue sampleRecord.v2000 sampleRecord.v2010 p.year)) ∧
    (sampleRecord.v2000 < sampleRecord.v2010 →
      (∀ y : ℕ, 2011 ≤ y → y ≤ 2025 →
        sampleRecord.v2010 < interpValue sampleRecord.v2000 sampleRecord.v2010 y) ∧
      (∀ y1 y2 : ℕ, 2011 ≤ y1 → y1 < y2 → y2 ≤ 2025 →
        interpValue sampleRecord.v2000 sampleRecord.v2010 y1 <
          interpValue sampleRecord.v2000 sampleRecord.v2010 y2)) ∧
    (sampleRecord.v2010 < sampleRecord.v2000 →
      (∀ y : ℕ, 2011 ≤ y → y ≤ 2025 →
        interpValue sampleRecord.v2000 sampleRecord.v2010 y < sampleRecord.v2010) ∧
      (∀ y1 y2 : ℕ, 2011 ≤ y1 → y1 < y2 → y2 ≤ 2025 →
        interpValue sampleRecord.v2000 sampleRecord.v2010 y2 <
          interpValue sampleRecord.v2000 sampleRecord.v2010 y1)) :=
  C10_trend_preservation sampleStore sampleModel "Brazil" sampleRecord _ rfl
    (generateSeries_ok sampleStore sampleModel "Brazil" sampleRecord rfl)

/-- The Brazil verification row of the documentation: anchors 61.08 (2000)
and 58.61 (2010) put the 2025 interpolated value at 55.71 to two decimals,
exactly as the documentation records.  This pins the continuous
fractional-decades exponent: a stepped whole-decade exponent would give
54.91 and an exponent in whole years would give 58.29. -/
theorem brazil_2025_verification :
    |interpValue 61.08 58.61 2025 - 55.71| ≤ 0.005 := by
  have hval : interpValue 61.08 58.61 2025
      = 58.61 - 0.247 * (15 * (0.85 * Real.sqrt 0.85)) := by
    unfold interpValue annualRate
    have hc : ((2025 : ℕ) : ℝ) = 2025 := by norm_num
    rw [hc]
    have h1 : ((2025 : ℝ) - 2010) / 10 = 1 + 1 / 2 := by norm_num
    rw [h1, Real.rpow_add moderatingFactor_pos, Real.rpow_one, ← Real.sqrt_eq_rpow]
    unfold moderatingFactor
    ring
  rw [hval, abs_le]
  obtain ⟨hlo, hhi⟩ := sqrt085_bounds
  constructor <;> nlinarith [hlo, hhi]

/-- The Bangladesh verification row of the documentation: anchors 13.90
(2000) and 15.90 (2010) put the 2025 interpolated value at 18.25 to two
decimals, again matching the documentation under the continuous
fractional-decades exponent. -/
theorem bangladesh_2025_verification :
    |interpValue 13.90 15.90 2025 - 18.25| ≤ 0.005 := by
  have hval : interpValue 13.90 15.90 2025
      = 15.90 + 0.2 * (15 * (0.85 * Real.sqrt 0.85)) := by
    unfold interpValue annualRate
    have hc : ((2025 : ℕ) : ℝ) = 2025 := by norm_num
    rw [hc]
    have h1 : ((2025 : ℝ) - 2010) / 10 = 1 + 1 / 2 := by norm_num
    rw [h1, Real.rpow_add moderatingFactor_pos, Real.rpow_one, ← Real.sqrt_eq_rpow]
    unfold moderatingFactor
    ring
  rw [hval, abs_le]
  obtain ⟨hlo, hhi⟩ := sqrt085_bounds
  constructor <;> nlinarith [hlo, hhi]
